import Mathlib

/-!
Verification of the Patrol Session Coordinator (`src/app/routes.py`).

The coordinator's state lives in module-level globals (lines 24-60 of
`routes.py`); the MQTT message handler `on_mqtt_message` (lines 526-658)
dispatches on topic and mutates that state, publishing to the bus and
emitting socket messages as side effects.  We embed the globals as a
`CoordState` record, the handler as a pure function from state and message
to a `HandlerOutcome` (new state, list of bus publishes, list of socket
emissions, and whether a Python exception escaped), and the operator
routes `select_circuit`, `deselect_circuit` and `silence_alarm` as state
transformers paired with their publishes.
-/

namespace Patrol

/-- A Python value as it appears in a decoded JSON payload.  The handler
consumes payloads via `list(payload.values())`, so a message payload is
embedded as the list of its values in insertion order. -/
inductive PyVal where
  | str : String → PyVal
  | int : Int → PyVal
  | bool : Bool → PyVal
  | none : PyVal
deriving DecidableEq, Repr

/-- Python truthiness (`if valid:` on line 611, `bool(connected)` on
lines 551-563) for the payload values the embedding can hold. -/
def pyTruthy : PyVal → Bool
  | .str s => s != ""
  | .int n => n != 0
  | .bool b => b
  | .none => false

/-- Python `str()` as used by f-string interpolation of a payload value
(`{chk}`, `{time}` in the handler's messages). -/
def pyStr : PyVal → String
  | .str s => s
  | .int n => toString n
  | .bool b => if b then "True" else "False"
  | .none => "None"

/-- ASCII upper-casing of a string, written by structural recursion over
the character list so that it evaluates inside the kernel. -/
def strUpper (s : String) : String :=
  String.mk (s.toList.map Char.toUpper)

/-- Python `x.upper()`: defined for strings, an `AttributeError` for
anything else (`id.upper()` on lines 586, 617, 644; `reason.upper()` on
line 633). -/
def pyUpper : PyVal → Option String
  | .str s => some (strUpper s)
  | _ => Option.none

/-- Python `datetime.fromtimestamp` accepts a number; `bool` is an `int`
subclass in Python, so `True`/`False` count as 1/0.  Anything else raises
a `TypeError` (line 583). -/
def pyAsTimestamp : PyVal → Option Int
  | .int t => some t
  | .bool b => some (if b then 1 else 0)
  | _ => Option.none

/-- Two-digit zero padding for time formatting. -/
def pad2 (n : Nat) : String :=
  if n < 10 then "0" ++ toString n else toString n

/-- Models `datetime.fromtimestamp(epoch).strftime("%H:%M:%S")` (line 583)
with a zero UTC offset; the real code uses the server's local timezone,
which the embedding fixes at UTC.  No claim depends on the exact digits. -/
def epochToHMS (t : Int) : String :=
  let secs := (t % 86400).toNat
  pad2 (secs / 3600) ++ ":" ++ pad2 (secs / 60 % 60) ++ ":" ++ pad2 (secs % 60)

/-- Splitting a character list on the slash character; Python
`"a/b".split("/")` yields every (possibly empty) group, and splitting a
string with no separator yields the one-element list holding it. -/
def splitSlashCs (cs : List Char) : List (List Char) :=
  match cs with
  | [] => [[]]
  | c :: rest =>
    if c = '/' then [] :: splitSlashCs rest
    else
      match splitSlashCs rest with
      | [] => [[c]]
      | g :: gs => (c :: g) :: gs

/-- Models `topic.split("/")[-1]` (lines 535, 565): the last segment of a
slash-separated topic string. -/
def lastSeg (t : String) : String :=
  String.mk ((splitSlashCs t.toList).getLastD [])

/-- Modelled from the spec: a Record Store card row.  `app/models.py` is
not in src; the fields are those the in-src code constructs
(`Card(rfid_id=..., alias=...)`, `routes.py` line 430).  The `alias`
field is renamed `aliasName` because `alias` is a reserved token here. -/
structure Card where
  rfid_id : String
  aliasName : String
deriving DecidableEq, Repr

/-- Modelled from Python semantics: line 631 evaluates `id not in cards`
where `id` is the payload's card-identifier value and `cards` is the list
of `Card` ORM rows from `Card.query.all()`.  List membership tests with
`==`; `app/models.py` (not in src) is a plain Flask-SQLAlchemy model, so
equality between a payload value (a `str`) and a `Card` instance falls
back to identity and is always `False`. -/
def pyValEqCard (_v : PyVal) (_c : Card) : Bool := false

/-- Modelled from the spec: a circuit entry
`{checkpoint, sentry, card, expected_time, observed_time|none, status}`
with `status ∈ {pending, confirmed, missed}`, produced by
`utils.generate_circuit` (`app/utils.py` is not in src). -/
structure CircuitEntry where
  checkpoint : String
  sentry : String
  card : String
  expected_time : Int
  observed_time : Option Int
  status : String
deriving DecidableEq, Repr

/-- Modelled from the spec: a Record Store `Shift` row (`app/models.py`
is not in src) with the fields `select_circuit` reads: `id`, `circuit`,
`path_freqs`, `shift_start`, `shift_end`, `completed`, `alarms`. -/
structure StoredShift where
  id : Nat
  circuit : List CircuitEntry
  path_freqs : List (String × Nat)
  shift_start : Int
  shift_end : Int
  completed : Bool
  alarms : List String
deriving DecidableEq, Repr

/-- The coordinator's module-level globals (`routes.py` lines 24-60).
`ALARMS` is `Option` because it starts as Python `None` and only becomes
a list when `select_circuit` loads a stored shift. -/
structure CoordState where
  SHIFT_STATUS : Bool
  CURRENT_CIRCUIT : Option Nat
  SENTRY_CIRCUIT : Option (List CircuitEntry)
  CIRCUIT_COMPLETED : Bool
  PATHS : Option (List (String × Nat))
  START : Int
  END : Int
  ALARMS : Option (List String)
  ALARM_TRIGGERED : Bool
  APP_CONNECTED : Bool
  HANDLER_CONNECTED : Bool
  CHK_A_CONNECTED : Bool
  CHK_B_CONNECTED : Bool
  CHK_C_CONNECTED : Bool
  CHK_D_CONNECTED : Bool
deriving DecidableEq, Repr

/-- The globals' initial values (`routes.py` lines 24-60): shift off, no
circuit, `ALARMS = None`, no alarm, every device disconnected. -/
def initialState : CoordState :=
  ⟨false, Option.none, Option.none, false, Option.none, 0, 0,
   Option.none, false, false, false, false, false, false, false⟩

/-- An inbound MQTT message: topic plus the value list of its decoded
JSON payload, in insertion order (the handler destructures payloads via
`list(payload.values())`). -/
structure MqttMessage where
  topic : String
  payload : List PyVal
deriving DecidableEq, Repr

/-- Result of running a handler or route: the state as it stands when the
handler returns or the exception escapes, the bus publishes
(topic, payload) and socket emissions (alert level, message) performed up
to that point, and `threw = some e` when a Python exception `e` escaped. -/
structure HandlerOutcome where
  state : CoordState
  published : List (String × String)
  emitted : List (String × String)
  threw : Option String
deriving DecidableEq, Repr

/-- Modelled from the spec: topic strings from `app/mqtts.py` (not in
src); §6 of the spec says the exact strings are a deployment detail.
Chosen so that the suffix dispatch in `on_mqtt_message` classifies each
topic as the code intends. -/
def CHKS_OVERDUE : String := "sentry-platform/checkpoints/overdue-scan"

/-- Modelled from the spec: the device-connectivity topic. -/
def CONNECTED : String := "sentry-platform/devices/connected"

/-- Modelled from the spec: the scan-result topic. -/
def ALERTS : String := "sentry-platform/checkpoints/alerts"

/-- Modelled from the spec: the shift-complete topic. -/
def DONE : String := "sentry-platform/circuit-handler/done"

/-- Modelled from the spec: the alarm on/off topic. -/
def ALARM : String := "sentry-platform/alarm"

/-- Modelled from the spec: the shift on/off topic. -/
def SHIFT_ON_OFF : String := "sentry-platform/shift"

/-- Modelled from the spec: `utils.update_circuit` (`app/utils.py` is not
in src) — "finds the matching pending entry for cardId/checkpoint, marks
`confirmed`, records `observed_time=epoch`; if no matching pending entry
exists, the confirmation is still accepted and logged but does not
fabricate a new entry".  The first matching pending entry is updated. -/
def update_circuit (circuits : List CircuitEntry) (id chk time : PyVal) :
    List CircuitEntry :=
  match circuits with
  | [] => []
  | e :: rest =>
    if id == PyVal.str e.card && chk == PyVal.str e.checkpoint &&
        e.status == "pending" then
      { e with status := "confirmed",
               observed_time :=
                 match time with
                 | PyVal.int t => some t
                 | _ => e.observed_time } :: rest
    else
      e :: update_circuit rest id chk time

/-- The validated branch of `select_circuit` (`routes.py` lines 276-301):
loads the stored shift's fields into the globals — note that
`ALARM_TRIGGERED` is not among them — and publishes shift ON. -/
def select_circuit (s : CoordState) (c : StoredShift) :
    CoordState × List (String × String) :=
  ({ s with SHIFT_STATUS := true,
            CURRENT_CIRCUIT := some c.id,
            SENTRY_CIRCUIT := some c.circuit,
            PATHS := some c.path_freqs,
            START := c.shift_start,
            END := c.shift_end,
            CIRCUIT_COMPLETED := c.completed,
            ALARMS := some c.alarms },
   [(SHIFT_ON_OFF, "ON")])

/-- `deselect_circuit` (`routes.py` lines 326-346): resets
`SHIFT_STATUS`, `CURRENT_CIRCUIT`, `SENTRY_CIRCUIT`, `START` and `END`
— and only those globals — then publishes shift OFF. -/
def deselect_circuit (s : CoordState) : CoordState × List (String × String) :=
  ({ s with SHIFT_STATUS := false,
            CURRENT_CIRCUIT := Option.none,
            SENTRY_CIRCUIT := Option.none,
            START := 0,
            END := 0 },
   [(SHIFT_ON_OFF, "OFF")])

/-- `silence_alarm` (`routes.py` lines 661-675): clears
`ALARM_TRIGGERED` and publishes alarm OFF; nothing else is touched. -/
def silence_alarm (s : CoordState) : CoordState × List (String × String) :=
  ({ s with ALARM_TRIGGERED := false }, [(ALARM, "OFF")])

/-- The device-name dispatch of the connectivity branch (`routes.py`
lines 548-563): a `match` on the five known device names; any other
client value falls through with no state change. -/
def applyConnectivity (s : CoordState) (client connected : PyVal) : CoordState :=
  match client with
  | PyVal.str c =>
    if c == "circuit-handler" then { s with HANDLER_CONNECTED := pyTruthy connected }
    else if c == "checkpoint-A" then { s with CHK_A_CONNECTED := pyTruthy connected }
    else if c == "checkpoint-B" then { s with CHK_B_CONNECTED := pyTruthy connected }
    else if c == "checkpoint-C" then { s with CHK_C_CONNECTED := pyTruthy connected }
    else if c == "checkpoint-D" then { s with CHK_D_CONNECTED := pyTruthy connected }
    else s
  | _ => s

/-- The tag derivation of the invalid-scan branch (`routes.py` lines
628-633): reason `"card not on duty"` checks the card identifier against
the Record Store's card rows (`tag = "UNKNOWN CARD" if id not in cards
else "STOLEN CARD"`); any other reason is upper-cased verbatim, which
raises `AttributeError` when `reason` is not a string. -/
def deriveTag (cards : List Card) (reason id : PyVal) : Except String String :=
  if reason == PyVal.str "card not on duty" then
    Except.ok (if !(cards.any (pyValEqCard id)) then "UNKNOWN CARD"
               else "STOLEN CARD")
  else
    match pyUpper reason with
    | some r => Except.ok r
    | Option.none => Except.error "AttributeError"

/-- `on_mqtt_message` (`routes.py` lines 526-658).  `cards` stands for
`Card.query.all()` (line 630), `now` for
`datetime.now().strftime("%H:%M:%S")` (lines 592, 639).  Statement order
follows the source exactly, so an exception thrown midway leaves exactly
the mutations and side effects performed before it. -/
def on_mqtt_message (cards : List Card) (now : String) (s : CoordState)
    (msg : MqttMessage) : HandlerOutcome :=
  let topic := msg.topic
  if lastSeg topic == "connected" then
    -- lines 535-563: destructure {id, connected}; match on the device name
    match msg.payload with
    | [client, connected] =>
      ⟨applyConnectivity s client connected, [], [], Option.none⟩
    | _ => ⟨s, [], [], some "ValueError"⟩
  else if lastSeg topic == "overdue-scan" then
    -- lines 565-598: destructure {id, checkpoint, time, checked}
    match msg.payload with
    | [id, chk, time, _checked] =>
      match pyAsTimestamp time with
      | some t =>
        match pyUpper id with
        | some idUp =>
          let message := "<strong>OVERDUE CHECK-IN!</strong> Sentry with card ID: "
            ++ idUp ++ " expected at checkpoint " ++ pyStr chk ++ " at "
            ++ epochToHMS t ++ "."
          let s1 := { s with ALARM_TRIGGERED := true }
          match s.ALARMS with
          | Option.none =>
            -- line 592: `ALARMS.append(...)` with ALARMS = None
            ⟨s1, [], [], some "AttributeError"⟩
          | some l =>
            ⟨{ s1 with ALARMS := some (l ++ [now]) },
             [(ALARM, "ON")], [("alert-danger", message)], Option.none⟩
        | Option.none => ⟨s, [], [], some "AttributeError"⟩
      | Option.none => ⟨s, [], [], some "TypeError"⟩
    | _ => ⟨s, [], [], some "ValueError"⟩
  else if topic == ALERTS then
    -- lines 600-645: destructure {valid, reason, id, checkpoint, time}
    match msg.payload with
    | [valid, reason, id, chk, time] =>
      if pyTruthy valid then
        -- lines 611-620: conformance update then success push
        match s.SENTRY_CIRCUIT with
        | Option.none =>
          -- `utils.update_circuit(None, ...)` iterates None
          ⟨s, [], [], some "TypeError"⟩
        | some circ =>
          let s1 := { s with SENTRY_CIRCUIT := some (update_circuit circ id chk time) }
          match pyUpper id with
          | some idUp =>
            let message := "<strong>SUCCESSFUL CHECK-IN!</strong> Sentry with card ID: "
              ++ idUp ++ " checked in at checkpoint " ++ pyStr chk ++ " at "
              ++ pyStr time ++ "."
            ⟨s1, [], [("alert-success", message)], Option.none⟩
          | Option.none => ⟨s1, [], [], some "AttributeError"⟩
      else
        -- lines 622-645: derive the tag, raise the alarm, push
        match deriveTag cards reason id with
        | Except.error e => ⟨s, [], [], some e⟩
        | Except.ok tag =>
          let s1 := { s with ALARM_TRIGGERED := true }
          match s.ALARMS with
          | Option.none =>
            -- line 639: `ALARMS.append(...)` with ALARMS = None
            ⟨s1, [], [], some "AttributeError"⟩
          | some l =>
            let s2 := { s1 with ALARMS := some (l ++ [now]) }
            match pyUpper id with
            | some idUp =>
              let message := "<strong>" ++ tag ++ "!</strong> Sentry with card ID: "
                ++ idUp ++ " checked in at checkpoint " ++ pyStr chk ++ " at "
                ++ pyStr time ++ "."
              ⟨s2, [(ALARM, "ON")], [("alert-danger", message)], Option.none⟩
            | Option.none =>
              -- line 644 throws after the alarm publish on line 641
              ⟨s2, [(ALARM, "ON")], [], some "AttributeError"⟩
    | _ => ⟨s, [], [], some "ValueError"⟩
  else if topic == DONE then
    -- lines 647-658
    ⟨{ s with CIRCUIT_COMPLETED := true, SHIFT_STATUS := false },
     [(SHIFT_ON_OFF, "OFF")],
     [("alert-success", "<strong>CIRCUIT COMPLETE!</strong> Save and exit.")],
     Option.none⟩
  else
    ⟨s, [], [], Option.none⟩

/-- Helper: for a string reason the tag derivation always succeeds
(both the "card not on duty" lookup and the verbatim upper-casing return
a tag; only a non-string reason can raise). -/
theorem deriveTag_str_ok (cards : List Card) (r : String) (idv : PyVal) :
    ∃ tag, deriveTag cards (PyVal.str r) idv = Except.ok tag := by
  unfold deriveTag
  by_cases hr : (PyVal.str r == PyVal.str "card not on duty") = true
  · rw [if_pos hr]
    exact ⟨_, rfl⟩
  · rw [if_neg hr]
    exact ⟨_, rfl⟩

/-- Helper: a device name outside the five known devices leaves the
connectivity flags untouched. -/
theorem applyConnectivity_unknown (s : CoordState) (name : String) (conn : PyVal)
    (h1 : name ≠ "circuit-handler") (h2 : name ≠ "checkpoint-A")
    (h3 : name ≠ "checkpoint-B") (h4 : name ≠ "checkpoint-C")
    (h5 : name ≠ "checkpoint-D") :
    applyConnectivity s (PyVal.str name) conn = s := by
  simp only [applyConnectivity, beq_iff_eq]
  rw [if_neg h1, if_neg h2, if_neg h3, if_neg h4, if_neg h5]

/-- C1 counterexample: with an active circuit holding a single pending
entry for card `c1` at checkpoint `A`, processing the matching overdue
event leaves the entry `pending`; the circuit is not set to `missed`. -/
theorem overdue_does_not_mark_missed_cex :
    (on_mqtt_message [] "12:00:00"
        { initialState with
            SENTRY_CIRCUIT := some [⟨"A", "Bob", "c1", 100, Option.none, "pending"⟩],
            ALARMS := some [] }
        ⟨CHKS_OVERDUE, [.str "c1", .str "A", .int 100, .bool false]⟩).state.SENTRY_CIRCUIT
      = some [⟨"A", "Bob", "c1", 100, Option.none, "pending"⟩] ∧
    (on_mqtt_message [] "12:00:00"
        { initialState with
            SENTRY_CIRCUIT := some [⟨"A", "Bob", "c1", 100, Option.none, "pending"⟩],
            ALARMS := some [] }
        ⟨CHKS_OVERDUE, [.str "c1", .str "A", .int 100, .bool false]⟩).state.SENTRY_CIRCUIT
      ≠ some [⟨"A", "Bob", "c1", 100, Option.none, "missed"⟩] := by
  exact ⟨rfl, by decide⟩

/-- C1 (amended): processing any message on the overdue-scan topic never
modifies the circuit — a matching pending entry stays pending; the
branch only raises the alarm and pushes a message. -/
theorem overdue_never_modifies_circuit (cards : List Card) (now : String)
    (s : CoordState) (payload : List PyVal) :
    (on_mqtt_message cards now s ⟨CHKS_OVERDUE, payload⟩).state.SENTRY_CIRCUIT
      = s.SENTRY_CIRCUIT := by
  obtain ⟨a1, a2, a3, a4, a5, a6, a7, a8, a9, a10, a11, a12, a13, a14, a15⟩ := s
  match payload with
  | [] => rfl
  | [_] => rfl
  | [_, _] => rfl
  | [_, _, _] => rfl
  | [id, chk, time, chkd] => cases time <;> cases id <;> cases a8 <;> rfl
  | _ :: _ :: _ :: _ :: _ :: _ => rfl

/-- C2: the code behavior at the failing input.  The Record Store holds a
card with identifier `abc123`; an invalid scan with reason
`card not on duty` for that same identifier is tagged `UNKNOWN CARD`,
not `STOLEN CARD`, because `id not in cards` compares the string against
`Card` rows and never matches. -/
theorem registered_card_tagged_unknown :
    on_mqtt_message [⟨"abc123", "a1"⟩] "12:00:00"
        { initialState with ALARMS := some [] }
        ⟨ALERTS, [.bool false, .str "card not on duty", .str "abc123", .str "A", .int 100]⟩
      = ⟨{ initialState with ALARMS := some ["12:00:00"], ALARM_TRIGGERED := true },
         [(ALARM, "ON")],
         [("alert-danger",
           "<strong>UNKNOWN CARD!</strong> Sentry with card ID: ABC123 checked in at checkpoint A at 100.")],
         Option.none⟩ := rfl

/-- C3: the code behavior at the failing inputs.  A well-formed overdue
event processed in the initial state (before any circuit is selected)
sets `ALARM_TRIGGERED` and then escapes with `AttributeError`, leaving
the state partially mutated with nothing published; an overdue payload
with a missing field escapes with `ValueError` at destructuring. -/
theorem handler_crashes_and_partially_mutates :
    (on_mqtt_message [] "12:00:00" initialState
        ⟨CHKS_OVERDUE, [.str "c3", .str "B", .int 50, .bool false]⟩
      = ⟨{ initialState with ALARM_TRIGGERED := true }, [], [], some "AttributeError"⟩) ∧
    ({ initialState with ALARM_TRIGGERED := true } ≠ initialState) ∧
    (on_mqtt_message [] "12:00:00" { initialState with ALARMS := some [] }
        ⟨CHKS_OVERDUE, [.str "x"]⟩
      = ⟨{ initialState with ALARMS := some [] }, [], [], some "ValueError"⟩) := by
  exact ⟨rfl, by decide, rfl⟩

/-- C4 counterexample: selecting a circuit while the previous session's
alarm is still active does not reset `ALARM_TRIGGERED`; it is not false
after `select_circuit` returns. -/
theorem select_circuit_keeps_alarm_flag_cex :
    ¬ ((select_circuit { initialState with ALARM_TRIGGERED := true }
          ⟨1, [], [], 0, 0, false, []⟩).1.ALARM_TRIGGERED = false) := by
  decide

/-- C4 (amended): `select_circuit` unconditionally replaces the session
fields — active flag, circuit id, circuit, path frequencies, start/end
epochs, completed flag and alarm history — from the stored circuit in
one step and publishes shift ON, but it leaves `ALARM_TRIGGERED` at its
prior value; in particular `silence_alarm` followed by `select_circuit`
does end with `ALARM_TRIGGERED = false`. -/
theorem select_circuit_spec (s : CoordState) (c : StoredShift) :
    select_circuit s c
      = ({ s with SHIFT_STATUS := true,
                  CURRENT_CIRCUIT := some c.id,
                  SENTRY_CIRCUIT := some c.circuit,
                  PATHS := some c.path_freqs,
                  START := c.shift_start,
                  END := c.shift_end,
                  CIRCUIT_COMPLETED := c.completed,
                  ALARMS := some c.alarms },
         [(SHIFT_ON_OFF, "ON")]) ∧
    (select_circuit s c).1.ALARM_TRIGGERED = s.ALARM_TRIGGERED ∧
    (select_circuit (silence_alarm s).1 c).1.ALARM_TRIGGERED = false := by
  exact ⟨rfl, rfl, rfl⟩

/-- C5 counterexample: deselecting a session whose alarm is active, with
a recorded alarm history, path frequencies and completed flag, leaves
all four of those fields as they were — they do not return to their
initial empty values. -/
theorem deselect_leaves_alarm_state_cex :
    (deselect_circuit
        { initialState with ALARM_TRIGGERED := true,
                            ALARMS := some ["09:00:00"],
                            PATHS := some [("A", 2)],
                            CIRCUIT_COMPLETED := true }).1.ALARM_TRIGGERED = true ∧
    (deselect_circuit
        { initialState with ALARM_TRIGGERED := true,
                            ALARMS := some ["09:00:00"],
                            PATHS := some [("A", 2)],
                            CIRCUIT_COMPLETED := true }).1.ALARMS = some ["09:00:00"] ∧
    (deselect_circuit
        { initialState with ALARM_TRIGGERED := true,
                            ALARMS := some ["09:00:00"],
                            PATHS := some [("A", 2)],
                            CIRCUIT_COMPLETED := true }).1.PATHS = some [("A", 2)] ∧
    (deselect_circuit
        { initialState with ALARM_TRIGGERED := true,
                            ALARMS := some ["09:00:00"],
                            PATHS := some [("A", 2)],
                            CIRCUIT_COMPLETED := true }).1.CIRCUIT_COMPLETED = true := by
  exact ⟨rfl, rfl, rfl, rfl⟩

/-- C5 (amended): `deselect_circuit` clears the active flag, circuit id,
circuit, start epoch and end epoch to their initial values and publishes
shift OFF; the path frequencies, completed flag, alarm flag and alarm
history keep their prior values. -/
theorem deselect_circuit_spec (s : CoordState) :
    (deselect_circuit s).1.SHIFT_STATUS = false ∧
    (deselect_circuit s).1.CURRENT_CIRCUIT = Option.none ∧
    (deselect_circuit s).1.SENTRY_CIRCUIT = Option.none ∧
    (deselect_circuit s).1.START = 0 ∧
    (deselect_circuit s).1.END = 0 ∧
    (deselect_circuit s).1.PATHS = s.PATHS ∧
    (deselect_circuit s).1.CIRCUIT_COMPLETED = s.CIRCUIT_COMPLETED ∧
    (deselect_circuit s).1.ALARMS = s.ALARMS ∧
    (deselect_circuit s).1.ALARM_TRIGGERED = s.ALARM_TRIGGERED ∧
    (deselect_circuit s).2 = [(SHIFT_ON_OFF, "OFF")] := by
  exact ⟨rfl, rfl, rfl, rfl, rfl, rfl, rfl, rfl, rfl, rfl⟩

/-- C6: with a selected session (the alarm history is a list), every
well-formed overdue event — whatever card and checkpoint it names, in
particular a pair absent from the active circuit — sets
`ALARM_TRIGGERED`, appends exactly one timestamp to the history,
publishes alarm ON, pushes one danger message, and does not throw. -/
theorem overdue_always_raises_alarm (cards : List Card) (now id : String)
    (chk checked : PyVal) (t : Int) (s : CoordState) (l : List String)
    (h : s.ALARMS = some l) :
    on_mqtt_message cards now s ⟨CHKS_OVERDUE, [.str id, chk, .int t, checked]⟩
      = ⟨{ s with ALARM_TRIGGERED := true, ALARMS := some (l ++ [now]) },
         [(ALARM, "ON")],
         [("alert-danger",
           "<strong>OVERDUE CHECK-IN!</strong> Sentry with card ID: "
             ++ strUpper id ++ " expected at checkpoint " ++ pyStr chk
             ++ " at " ++ epochToHMS t ++ ".")],
         Option.none⟩ := by
  obtain ⟨a1, a2, a3, a4, a5, a6, a7, a8, a9, a10, a11, a12, a13, a14, a15⟩ := s
  subst h
  rfl

/-- C6 witness: the theorem applied at a concrete overdue event whose
card/checkpoint pair is not in any circuit. -/
theorem overdue_always_raises_alarm_witness :
    on_mqtt_message [] "12:00:00" { initialState with ALARMS := some [] }
        ⟨CHKS_OVERDUE, [.str "c1", .str "Z", .int 100, .bool false]⟩
      = ⟨{ initialState with ALARM_TRIGGERED := true, ALARMS := some ["12:00:00"] },
         [(ALARM, "ON")],
         [("alert-danger",
           "<strong>OVERDUE CHECK-IN!</strong> Sentry with card ID: C1 expected at checkpoint Z at 00:01:40.")],
         Option.none⟩ :=
  overdue_always_raises_alarm [] "12:00:00" "c1" (PyVal.str "Z") (PyVal.bool false)
    100 { initialState with ALARMS := some [] } [] rfl

/-- C7: `silence_alarm` clears `ALARM_TRIGGERED` and publishes alarm
OFF, leaving the alarm history and every other field unchanged; when no
alarm is active the state is returned exactly as it was. -/
theorem silence_alarm_spec (s : CoordState) :
    silence_alarm s = ({ s with ALARM_TRIGGERED := false }, [(ALARM, "OFF")]) ∧
    (s.ALARM_TRIGGERED = false → (silence_alarm s).1 = s) := by
  refine ⟨rfl, fun h => ?_⟩
  obtain ⟨a1, a2, a3, a4, a5, a6, a7, a8, a9, a10, a11, a12, a13, a14, a15⟩ := s
  subst h
  rfl

/-- C7 witness: silencing with no alarm active is a state no-op. -/
theorem silence_alarm_spec_witness :
    (silence_alarm initialState).1 = initialState :=
  (silence_alarm_spec initialState).2 rfl

/-- C8: `deselect_circuit` is idempotent on the state — a second call
returns the state the first produced — and calling it on a state whose
session fields are already cleared returns that state unchanged. -/
theorem deselect_circuit_idempotent (s : CoordState) :
    (deselect_circuit (deselect_circuit s).1).1 = (deselect_circuit s).1 ∧
    (s.SHIFT_STATUS = false → s.CURRENT_CIRCUIT = Option.none →
      s.SENTRY_CIRCUIT = Option.none → s.START = 0 → s.END = 0 →
      (deselect_circuit s).1 = s) := by
  refine ⟨rfl, fun h1 h2 h3 h4 h5 => ?_⟩
  obtain ⟨a1, a2, a3, a4, a5, a6, a7, a8, a9, a10, a11, a12, a13, a14, a15⟩ := s
  subst h1; subst h2; subst h3; subst h4; subst h5
  rfl

/-- C8 witness: deselecting from the initial (cleared) state is a state
no-op. -/
theorem deselect_circuit_idempotent_witness :
    (deselect_circuit initialState).1 = initialState :=
  (deselect_circuit_idempotent initialState).2 rfl rfl rfl rfl rfl

/-- C9: a connectivity status event for a device name outside the fixed
set {circuit-handler, checkpoint-A..D} leaves the whole state (all
connection flags included) unchanged, publishes nothing, pushes nothing
and raises no error. -/
theorem unknown_device_leaves_state_unchanged (cards : List Card) (now : String)
    (s : CoordState) (name : String) (conn : PyVal)
    (h : name ∉ (["circuit-handler", "checkpoint-A", "checkpoint-B",
                  "checkpoint-C", "checkpoint-D"] : List String)) :
    on_mqtt_message cards now s ⟨CONNECTED, [.str name, conn]⟩
      = ⟨s, [], [], Option.none⟩ := by
  simp only [List.mem_cons, List.not_mem_nil, or_false, not_or] at h
  obtain ⟨h1, h2, h3, h4, h5⟩ := h
  have hstep : on_mqtt_message cards now s ⟨CONNECTED, [.str name, conn]⟩
      = ⟨applyConnectivity s (PyVal.str name) conn, [], [], Option.none⟩ := rfl
  rw [hstep, applyConnectivity_unknown s name conn h1 h2 h3 h4 h5]

/-- C9 witness: a status event for the unknown device name
`gate-sensor` is ignored. -/
theorem unknown_device_leaves_state_unchanged_witness :
    on_mqtt_message [] "12:00:00" initialState
        ⟨CONNECTED, [.str "gate-sensor", .bool true]⟩
      = ⟨initialState, [], [], Option.none⟩ :=
  unknown_device_leaves_state_unchanged [] "12:00:00" initialState "gate-sensor"
    (PyVal.bool true) (by decide)

/-- C10: with `ALARMS` still `None` (no circuit ever selected), both a
well-formed overdue event and a well-formed invalid scan-result event
first set `ALARM_TRIGGERED` and then escape with `AttributeError` at
`ALARMS.append`; nothing is published and nothing is pushed, so the
alarm flag is left set without any alarm having gone out. -/
theorem alarm_raise_throws_when_never_selected (cards : List Card)
    (now id reason : String) (chk checked idv chkv timev : PyVal) (t : Int)
    (s : CoordState) (h : s.ALARMS = Option.none) :
    (on_mqtt_message cards now s ⟨CHKS_OVERDUE, [.str id, chk, .int t, checked]⟩
      = ⟨{ s with ALARM_TRIGGERED := true }, [], [], some "AttributeError"⟩) ∧
    (on_mqtt_message cards now s ⟨ALERTS, [.bool false, .str reason, idv, chkv, timev]⟩
      = ⟨{ s with ALARM_TRIGGERED := true }, [], [], some "AttributeError"⟩) := by
  obtain ⟨a1, a2, a3, a4, a5, a6, a7, a8, a9, a10, a11, a12, a13, a14, a15⟩ := s
  subst h
  refine ⟨rfl, ?_⟩
  obtain ⟨tag, htag⟩ := deriveTag_str_ok cards reason idv
  show (match deriveTag cards (PyVal.str reason) idv with
        | Except.error e =>
          ({ state := _, published := [], emitted := [], threw := some e } : HandlerOutcome)
        | Except.ok _ =>
          ({ state := _, published := [], emitted := [], threw := some "AttributeError" } :
            HandlerOutcome)) = _
  rw [htag]

/-- C10 witness: the theorem applied in the initial state to a concrete
overdue event and a concrete not-on-duty scan. -/
theorem alarm_raise_throws_when_never_selected_witness :
    (on_mqtt_message [] "12:00:00" initialState
        ⟨CHKS_OVERDUE, [.str "c9", .str "A", .int 100, .bool false]⟩
      = ⟨{ initialState with ALARM_TRIGGERED := true }, [], [], some "AttributeError"⟩) ∧
    (on_mqtt_message [] "12:00:00" initialState
        ⟨ALERTS, [.bool false, .str "card not on duty", .str "c9", .str "A", .int 100]⟩
      = ⟨{ initialState with ALARM_TRIGGERED := true }, [], [], some "AttributeError"⟩) :=
  alarm_raise_throws_when_never_selected [] "12:00:00" "c9" "card not on duty"
    (PyVal.str "A") (PyVal.bool false) (PyVal.str "c9") (PyVal.str "A")
    (PyVal.int 100) 100 initialState rfl

end Patrol
